import Mathlib

/-!
Shallow embedding of the to-do SPA client (src/02AfterSPA/Scripts/app.ts):
the data model (ITodoFilter, ITodoItem, the Columns enum), the HTTP wrapper
service (TodoService), and the list controller (TodoController).

Asynchronous behaviour is embedded by splitting each operation into its
synchronous phase (state change plus the list of service calls it issues)
and its settlement handlers (what the promise callbacks do), following the
single-threaded event-loop semantics: all calls of one synchronous phase are
issued before any settlement callback runs.
-/

namespace TodoApp

/-- interface ITodoFilter: the filter sent to the server. -/
structure ITodoFilter where
  filterText : String
  columnName : String
  sortAscending : Bool
deriving DecidableEq, Repr

/-- interface ITodoItem: one to-do record, Pascal-cased as on the wire. -/
structure ITodoItem where
  Id : Int
  IsDone : Bool
  Description : String
  DueDate : String
deriving DecidableEq, Repr

/-- enum Columns. -/
inductive Columns where
  | Id
  | Completed
  | Description
  | DueDate
deriving DecidableEq, Repr

/-- The numeric value TypeScript assigns to each enum member. -/
def Columns.value : Columns → Nat
  | .Id => 0
  | .Completed => 1
  | .Description => 2
  | .DueDate => 3

/-- The reverse lookup TypeScript compiles into the enum object:
indexing the enum object with a member value yields the member name,
and any other index yields undefined (here none). -/
def Columns.lookup : Nat → Option String
  | 0 => some "Id"
  | 1 => some "Completed"
  | 2 => some "Description"
  | 3 => some "DueDate"
  | _ => none

/-- A JavaScript value as it flows through the untyped deferred objects:
an item, an item list, an $http response object (data field plus status),
or undefined. -/
inductive JsValue where
  | item : ITodoItem → JsValue
  | itemList : List ITodoItem → JsValue
  | httpResponse : JsValue → Int → JsValue
  | undefinedVal : JsValue
deriving DecidableEq, Repr

/-- Reading the data field of an $http response object. -/
def JsValue.dataField : JsValue → JsValue
  | .httpResponse d _ => d
  | _ => .undefinedVal

/-- The GET request issued by TodoService.getItems: url plus the filter
passed verbatim as query parameters. -/
structure HttpGetRequest where
  url : String
  params : ITodoFilter
deriving DecidableEq, Repr

namespace TodoService

/-- TodoService.getItems issues this request: $http.get of /api/todo with
the filter object as params. -/
def getItemsRequest (filter : ITodoFilter) : HttpGetRequest :=
  { url := "/api/todo", params := filter }

/-- TodoService.getItems success callback: var list = result.data;
defer.resolve(list) — the deferred resolves with the data field. -/
def getItemsResolve (result : JsValue) : JsValue :=
  JsValue.dataField result

/-- TodoService.getItems failure callback: defer.reject(err). -/
def getItemsReject (err : JsValue) : JsValue :=
  err

/-- TodoService.updateItem success callback: defer.resolve(result) —
the deferred resolves with the whole response object, not result.data. -/
def updateItemResolve (result : JsValue) : JsValue :=
  result

/-- TodoService.updateItem failure callback: defer.reject(err). -/
def updateItemReject (err : JsValue) : JsValue :=
  err

end TodoService

/-- The bindable state of TodoController: current filter, the most recently
fetched item collection, and the loading flag. -/
structure CtrlState where
  filter : ITodoFilter
  items : List ITodoItem
  loading : Bool
deriving DecidableEq, Repr

/-- A service call issued by the controller. -/
inductive Call where
  | getItems : ITodoFilter → Call
  | updateItem : ITodoItem → Call
  | deleteItem : ITodoItem → Call
deriving DecidableEq, Repr

namespace TodoController

/-- The filter built in the constructor: filterText empty, columnName the
reverse enum lookup of Columns.DueDate, sortAscending false.  The lookup is
total in TypeScript for a valid member, so getD only names the impossible
branch. -/
def initialFilter : ITodoFilter :=
  { filterText := ""
    columnName := (Columns.lookup (Columns.value Columns.DueDate)).getD ""
    sortAscending := false }

/-- refresh(), synchronous phase: set loading, issue one getItems call
carrying the current filter. -/
def refreshStart (c : CtrlState) : CtrlState × List Call :=
  ({ c with loading := true }, [Call.getItems c.filter])

/-- refresh() success callback: this.items = list; this.loading = false. -/
def refreshSuccess (c : CtrlState) (list : List ITodoItem) : CtrlState :=
  { c with items := list, loading := false }

/-- refresh() failure callback: alert(err); this.loading = false.  Returns
the new state and the alerts shown to the user. -/
def refreshFailure (c : CtrlState) (err : String) : CtrlState × List String :=
  ({ c with loading := false }, [err])

/-- The constructor: fields initialize items to the empty list and loading
to false, the body sets the filter and calls refresh(). -/
def construct : CtrlState × List Call :=
  refreshStart { filter := initialFilter, items := [], loading := false }

/-- overdue(todoItem): now strictly greater than the parsed due date.
Dates are embedded as their integer timestamps via the parse function. -/
def overdue (parseDate : String → Int) (now : Int) (todoItem : ITodoItem) : Bool :=
  decide (now > parseDate todoItem.DueDate)

/-- update(todoItem), synchronous phase: set loading, issue one updateItem
call. -/
def update (c : CtrlState) (todoItem : ITodoItem) : CtrlState × List Call :=
  ({ c with loading := true }, [Call.updateItem todoItem])

/-- update() success callback: this.loading = false. -/
def updateSuccess (c : CtrlState) : CtrlState :=
  { c with loading := false }

/-- update() failure callback: alert(err); this.loading = false. -/
def updateFailure (c : CtrlState) (err : String) : CtrlState × List String :=
  ({ c with loading := false }, [err])

/-- changeColumn(columnName): toggle sortAscending when the column is the
current one, otherwise switch columnName; then refresh(). -/
def changeColumn (c : CtrlState) (columnName : String) : CtrlState × List Call :=
  let f := c.filter
  let f' :=
    if f.columnName = columnName then
      { f with sortAscending := !f.sortAscending }
    else
      { f with columnName := columnName }
  refreshStart { c with filter := f' }

/-- noCompleted(): angular.forEach over the items setting hasDone when an
item IsDone, then return the negation. -/
def noCompleted (c : CtrlState) : Bool :=
  !(c.items.foldl (fun hasDone item => if item.IsDone then true else hasDone) false)

/-- removeCompleted(), synchronous phase.  When the confirmation is
declined the method returns at once.  Otherwise it sets loading and runs
angular.forEach over the items: each done item increments count and gets
one deleteItem call.  Returns the new state, the calls issued in order,
and the final value of count. -/
def removeCompleted (c : CtrlState) (confirmed : Bool) : CtrlState × List Call × Int :=
  if confirmed then
    let acc := c.items.foldl
      (fun (acc : Int × List Call) item =>
        if item.IsDone then (acc.1 + 1, acc.2 ++ [Call.deleteItem item]) else acc)
      (0, [])
    ({ c with loading := true }, acc.2, acc.1)
  else
    (c, [], 0)

/-- checkCount, the shared settlement callback: count -= 1; refresh when
count reaches exactly zero.  Returns the new count and whether refresh
fired. -/
def checkCount (count : Int) : Int × Bool :=
  (count - 1, decide (count - 1 = 0))

/-- An event of the settlement phase of removeCompleted: one delete call
settling (true for success, false for rejection), or the follow-up
refresh being triggered with the controller filter. -/
inductive RCEvent where
  | settle : Bool → RCEvent
  | refreshCall : ITodoFilter → RCEvent
deriving DecidableEq, Repr

/-- The settlement phase: each settlement (success and rejection alike)
invokes checkCount; when the count reaches zero the refresh is triggered.
Produces the event trace in settlement order. -/
def settleRun (filter : ITodoFilter) (count : Int) : List Bool → List RCEvent
  | [] => []
  | outcome :: rest =>
    let step := checkCount count
    RCEvent.settle outcome ::
      ((if step.2 then [RCEvent.refreshCall filter] else []) ++ settleRun filter step.1 rest)

/-- How many refresh triggers a trace contains. -/
def refreshCount (events : List RCEvent) : Nat :=
  events.countP (fun e => match e with | RCEvent.refreshCall _ => true | _ => false)

end TodoController

/-! Helper lemmas about the folds used by the controller. -/

/-- The forEach of noCompleted computes the disjunction of the accumulator
with "some item is done". -/
theorem foldl_hasDone_eq (items : List ITodoItem) (b : Bool) :
    items.foldl (fun hasDone item => if item.IsDone then true else hasDone) b
      = (b || items.any fun item => item.IsDone) := by
  induction items generalizing b with
  | nil => simp
  | cons i rest ih =>
    rw [List.foldl_cons, ih]
    cases h : i.IsDone <;> simp [h]

/-- The forEach of removeCompleted counts the done items and issues one
deleteItem call per done item, in order. -/
theorem foldl_removeCompleted_eq (items : List ITodoItem) (n : Int) (cs : List Call) :
    items.foldl
      (fun (acc : Int × List Call) item =>
        if item.IsDone then (acc.1 + 1, acc.2 ++ [Call.deleteItem item]) else acc)
      (n, cs)
    = (n + ((items.filter fun item => item.IsDone).length : Int),
       cs ++ (items.filter fun item => item.IsDone).map Call.deleteItem) := by
  induction items generalizing n cs with
  | nil => simp
  | cons i rest ih =>
    by_cases h : i.IsDone
    · simp only [List.foldl_cons, List.filter_cons, h, if_true, ih, List.map_cons,
        List.length_cons, Prod.mk.injEq]
      refine ⟨by push_cast; ring, by simp⟩
    · simp [List.foldl_cons, List.filter_cons, h, ih]

/-- The confirmed synchronous phase of removeCompleted in closed form:
loading set, one deleteItem call per done item in order, and the counter
equal to the number of done items. -/
theorem removeCompleted_confirmed_eq (c : CtrlState) :
    TodoController.removeCompleted c true
      = ({ c with loading := true },
         (c.items.filter fun item => item.IsDone).map Call.deleteItem,
         ((c.items.filter fun item => item.IsDone).length : Int)) := by
  simp [TodoController.removeCompleted, foldl_removeCompleted_eq]

/-- One step of the settlement phase in closed form. -/
theorem settleRun_cons (f : ITodoFilter) (n : Int) (b : Bool) (rest : List Bool) :
    TodoController.settleRun f n (b :: rest)
      = TodoController.RCEvent.settle b ::
        ((if n - 1 = 0 then [TodoController.RCEvent.refreshCall f] else [])
          ++ TodoController.settleRun f (n - 1) rest) := by
  simp [TodoController.settleRun, TodoController.checkCount]

/-- Draining the settlement phase: when the counter starts at the number of
settlements and that number is positive, the trace is all the settlements
followed by exactly the one refresh trigger. -/
theorem settleRun_drain (f : ITodoFilter) (outcomes : List Bool) (h : outcomes ≠ []) :
    TodoController.settleRun f (outcomes.length : Int) outcomes
      = outcomes.map TodoController.RCEvent.settle ++ [TodoController.RCEvent.refreshCall f] := by
  induction outcomes with
  | nil => exact absurd rfl h
  | cons b rest ih =>
    rw [settleRun_cons]
    have hlen : ((b :: rest : List Bool).length : Int) - 1 = (rest.length : Int) := by
      simp
    rw [hlen]
    by_cases hr : rest = []
    · subst hr
      simp [TodoController.settleRun]
    · have hne : ¬((rest.length : Int) = 0) := by
        have := List.length_pos.mpr hr
        omega
      rw [if_neg hne, List.nil_append, ih hr]
      simp

/-- Before every delete has settled the refresh has not fired: a settlement
prefix strictly shorter than the counter produces no refresh trigger. -/
theorem settleRun_partial (f : ITodoFilter) (pre : List Bool) (n : Int)
    (h : (pre.length : Int) < n) :
    TodoController.refreshCount (TodoController.settleRun f n pre) = 0 := by
  induction pre generalizing n with
  | nil => simp [TodoController.settleRun, TodoController.refreshCount]
  | cons b rest ih =>
    simp only [List.length_cons] at h
    have h1 : ¬(n - 1 = 0) := by
      push_cast at h
      omega
    rw [settleRun_cons, if_neg h1, List.nil_append]
    have h2 : ((rest.length : Int)) < n - 1 := by
      push_cast at h
      omega
    have := ih (n - 1) h2
    simp only [TodoController.refreshCount, List.countP_cons] at this ⊢
    simp [this]

/-! The claims. -/

/-- C1, counterexample to the claim as stated: on a collection with no done
item, a confirmed removeCompleted issues zero deletes, the counter stays at
zero, no settlement ever happens, and the settlement phase (here empty)
triggers zero refreshes, not exactly one. -/
theorem removeCompleted_no_done_zero_refresh :
    (TodoApp.TodoController.removeCompleted
        ⟨⟨"", "DueDate", false⟩, [], false⟩ true).2.1 = []
    ∧ (TodoApp.TodoController.removeCompleted
        ⟨⟨"", "DueDate", false⟩, [], false⟩ true).2.2 = 0
    ∧ TodoApp.TodoController.refreshCount
        (TodoApp.TodoController.settleRun ⟨"", "DueDate", false⟩ 0 []) ≠ 1 := by
  refine ⟨rfl, rfl, ?_⟩
  simp [TodoController.settleRun, TodoController.refreshCount]

/-- C1 (amended: at least one item is done): a confirmed removeCompleted
issues exactly one deleteItem call per done item and sets the counter to
their number; processing the settlements (success and rejection treated
identically) yields a trace that is all the settlements followed by exactly
one refresh trigger, and any strictly shorter settlement prefix triggers no
refresh at all. -/
theorem removeCompleted_fanout_single_refresh (c : CtrlState) (outcomes : List Bool)
    (hlen : outcomes.length = (c.items.filter fun item => item.IsDone).length)
    (hone : outcomes ≠ []) :
    (TodoController.removeCompleted c true).2.1
        = (c.items.filter fun item => item.IsDone).map Call.deleteItem
    ∧ (TodoController.removeCompleted c true).1 = { c with loading := true }
    ∧ (TodoController.removeCompleted c true).2.2 = (outcomes.length : Int)
    ∧ TodoController.settleRun c.filter (TodoController.removeCompleted c true).2.2 outcomes
        = outcomes.map TodoController.RCEvent.settle
            ++ [TodoController.RCEvent.refreshCall c.filter]
    ∧ TodoController.refreshCount
        (TodoController.settleRun c.filter
          (TodoController.removeCompleted c true).2.2 outcomes) = 1
    ∧ ∀ pre : List Bool, pre.length < outcomes.length →
        TodoController.refreshCount
          (TodoController.settleRun c.filter
            (TodoController.removeCompleted c true).2.2 pre) = 0 := by
  have hc := removeCompleted_confirmed_eq c
  have hcount : (TodoController.removeCompleted c true).2.2 = (outcomes.length : Int) := by
    rw [hc, hlen]
  have hdrain := settleRun_drain c.filter outcomes hone
  refine ⟨by rw [hc], by rw [hc], hcount, ?_, ?_, ?_⟩
  · rw [hcount, hdrain]
  · rw [hcount, hdrain]
    simp [TodoController.refreshCount, List.countP_append, List.countP_map]
  · intro pre hpre
    rw [hcount]
    exact settleRun_partial c.filter pre _ (by omega)

/-- C1, witness: three done items, two deletes succeed and one rejects;
the single refresh fires only after all three settle. -/
theorem removeCompleted_fanout_single_refresh_w :
    ([true, false, true] : List Bool).length
        = (([⟨1, true, "a", "2020-01-01"⟩, ⟨2, true, "b", "2020-01-02"⟩,
            ⟨3, true, "c", "2020-01-03"⟩] : List ITodoItem).filter
              fun item => item.IsDone).length
    ∧ TodoController.settleRun ⟨"", "DueDate", false⟩
        (TodoController.removeCompleted
          ⟨⟨"", "DueDate", false⟩,
           [⟨1, true, "a", "2020-01-01"⟩, ⟨2, true, "b", "2020-01-02"⟩,
            ⟨3, true, "c", "2020-01-03"⟩], false⟩ true).2.2
        [true, false, true]
        = [TodoController.RCEvent.settle true, TodoController.RCEvent.settle false,
           TodoController.RCEvent.settle true,
           TodoController.RCEvent.refreshCall ⟨"", "DueDate", false⟩]
    ∧ TodoController.refreshCount
        (TodoController.settleRun ⟨"", "DueDate", false⟩
          (TodoController.removeCompleted
            ⟨⟨"", "DueDate", false⟩,
             [⟨1, true, "a", "2020-01-01"⟩, ⟨2, true, "b", "2020-01-02"⟩,
              ⟨3, true, "c", "2020-01-03"⟩], false⟩ true).2.2
          [true, false]) = 0 :=
  ⟨by decide,
   (removeCompleted_fanout_single_refresh _ [true, false, true]
      (by decide) (by decide)).2.2.2.1,
   (removeCompleted_fanout_single_refresh _ [true, false, true]
      (by decide) (by decide)).2.2.2.2.2 [true, false] (by decide)⟩

/-- C2: the claim says updateItem resolves with the Item acknowledgement
itself; the code resolves the deferred with the whole $http response object
(defer.resolve(result), not result.data as getItems does), contradicting
the declared return type IPromise of ITodoItem.  Evaluated at a concrete
response wrapping an acknowledged Item: the resolved value is the response
object and differs from the Item; the rejection clause of the claim does
hold (defer.reject(err) passes the error through). -/
theorem updateItem_resolves_full_response :
    TodoService.updateItemResolve
        (JsValue.httpResponse (JsValue.item ⟨1, false, "a", "2020-01-01"⟩) 200)
      = JsValue.httpResponse (JsValue.item ⟨1, false, "a", "2020-01-01"⟩) 200
    ∧ TodoService.updateItemResolve
        (JsValue.httpResponse (JsValue.item ⟨1, false, "a", "2020-01-01"⟩) 200)
      ≠ JsValue.item ⟨1, false, "a", "2020-01-01"⟩
    ∧ TodoService.getItemsResolve
        (JsValue.httpResponse (JsValue.itemList [⟨1, false, "a", "2020-01-01"⟩]) 200)
      = JsValue.itemList [⟨1, false, "a", "2020-01-01"⟩]
    ∧ ∀ e : JsValue, TodoService.updateItemReject e = e :=
  ⟨rfl, by decide, rfl, fun _ => rfl⟩

/-- C3: a confirmed removeCompleted over a collection with no done item
sets loading to true, issues zero deleteItem calls, leaves the counter at
zero so checkCount never runs and the refresh is never triggered, and
nothing in this call ever resets loading to false. -/
theorem removeCompleted_no_done_items (c : CtrlState)
    (h : ∀ item ∈ c.items, item.IsDone = false) :
    (TodoController.removeCompleted c true).1 = { c with loading := true }
    ∧ (TodoController.removeCompleted c true).2.1 = []
    ∧ (TodoController.removeCompleted c true).2.2 = 0
    ∧ TodoController.settleRun c.filter 0 [] = []
    ∧ (TodoController.removeCompleted c true).1.loading = true := by
  have hf : c.items.filter (fun item => item.IsDone) = [] := by
    rw [List.filter_eq_nil_iff]
    intro a ha
    simp [h a ha]
  rw [removeCompleted_confirmed_eq, hf]
  refine ⟨rfl, rfl, rfl, rfl, rfl⟩

/-- C3, witness: a one-element collection whose item is not done. -/
theorem removeCompleted_no_done_items_w :
    (∀ item ∈ ([⟨1, false, "a", "2020-01-01"⟩] : List ITodoItem), item.IsDone = false)
    ∧ (TodoController.removeCompleted
        ⟨⟨"", "DueDate", false⟩, [⟨1, false, "a", "2020-01-01"⟩], false⟩ true).2.1 = []
    ∧ (TodoController.removeCompleted
        ⟨⟨"", "DueDate", false⟩, [⟨1, false, "a", "2020-01-01"⟩], false⟩ true).1.loading
        = true :=
  ⟨by decide,
   (removeCompleted_no_done_items _ (by decide)).2.1,
   (removeCompleted_no_done_items
      ⟨⟨"", "DueDate", false⟩, [⟨1, false, "a", "2020-01-01"⟩], false⟩
      (by decide)).2.2.2.2⟩

/-- C4: changeColumn on the current sort column toggles sortAscending and
keeps columnName; on a different column it sets columnName and keeps
sortAscending; in both cases exactly one refresh call is issued, carrying
the updated filter. -/
theorem changeColumn_toggle_or_switch (c : CtrlState) (name : String) :
    (c.filter.columnName = name →
      (TodoController.changeColumn c name).1.filter.sortAscending
          = !c.filter.sortAscending
        ∧ (TodoController.changeColumn c name).1.filter.columnName
          = c.filter.columnName)
    ∧ (c.filter.columnName ≠ name →
      (TodoController.changeColumn c name).1.filter.columnName = name
        ∧ (TodoController.changeColumn c name).1.filter.sortAscending
          = c.filter.sortAscending)
    ∧ (TodoController.changeColumn c name).2
        = [Call.getItems (TodoController.changeColumn c name).1.filter] := by
  unfold TodoController.changeColumn TodoController.refreshStart
  by_cases h : c.filter.columnName = name <;> simp [h]

/-- C4, witness: toggling on the current column and switching to another. -/
theorem changeColumn_toggle_or_switch_w :
    ((TodoController.changeColumn
        ⟨⟨"", "DueDate", false⟩, [], false⟩ "DueDate").1.filter.sortAscending = !false
      ∧ (TodoController.changeColumn
          ⟨⟨"", "DueDate", false⟩, [], false⟩ "DueDate").1.filter.columnName = "DueDate")
    ∧ ((TodoController.changeColumn
          ⟨⟨"", "DueDate", false⟩, [], false⟩ "Id").1.filter.columnName = "Id"
      ∧ (TodoController.changeColumn
          ⟨⟨"", "DueDate", false⟩, [], false⟩ "Id").1.filter.sortAscending = false) :=
  ⟨(changeColumn_toggle_or_switch ⟨⟨"", "DueDate", false⟩, [], false⟩ "DueDate").1 rfl,
   (changeColumn_toggle_or_switch ⟨⟨"", "DueDate", false⟩, [], false⟩ "Id").2.1 (by decide)⟩

/-- C5: refresh sets loading, leaves items and filter untouched in its
synchronous phase, and issues exactly one list request whose query
parameters are exactly the filter's three fields; the service resolves with
the response data verbatim; on success the item collection is replaced by
the response verbatim and loading cleared; on failure the error is alerted,
loading cleared, and the item collection left unchanged. -/
theorem refresh_request_and_settle (c : CtrlState) (list : List ITodoItem)
    (err : String) (status : Int) :
    (TodoController.refreshStart c).1 = { c with loading := true }
    ∧ (TodoController.refreshStart c).2 = [Call.getItems c.filter]
    ∧ TodoService.getItemsRequest c.filter = ⟨"/api/todo", c.filter⟩
    ∧ TodoService.getItemsResolve (JsValue.httpResponse (JsValue.itemList list) status)
        = JsValue.itemList list
    ∧ TodoController.refreshSuccess (TodoController.refreshStart c).1 list
        = { filter := c.filter, items := list, loading := false }
    ∧ (TodoController.refreshFailure (TodoController.refreshStart c).1 err).1
        = { c with loading := false }
    ∧ (TodoController.refreshFailure (TodoController.refreshStart c).1 err).2 = [err] :=
  ⟨rfl, rfl, rfl, rfl, rfl, rfl, rfl⟩

/-- C6: overdue holds exactly when the current time is strictly later than
the item's due date (dates embedded as timestamps through the parse
function), and fails when the current time equals or precedes it. -/
theorem overdue_strict_iff (parseDate : String → Int) (now : Int) (item : ITodoItem) :
    (TodoController.overdue parseDate now item = true ↔ parseDate item.DueDate < now)
    ∧ (now ≤ parseDate item.DueDate → TodoController.overdue parseDate now item = false) := by
  constructor
  · simp [TodoController.overdue]
  · intro h
    simp [TodoController.overdue]
    omega

/-- C6, witness: at the instant equal to the due date, overdue is false. -/
theorem overdue_strict_iff_w :
    (0 : Int) ≤ (fun _ : String => (0 : Int)) "2020-01-01"
    ∧ TodoController.overdue (fun _ => (0 : Int)) 0 ⟨1, false, "a", "2020-01-01"⟩ = false :=
  ⟨le_refl 0,
   (overdue_strict_iff (fun _ => (0 : Int)) 0 ⟨1, false, "a", "2020-01-01"⟩).2 (le_refl 0)⟩

/-- C7: noCompleted is true exactly when every item of the collection has
IsDone false (so false as soon as one item is done). -/
theorem noCompleted_iff_all_not_done (c : CtrlState) :
    TodoController.noCompleted c = true ↔ ∀ item ∈ c.items, item.IsDone = false := by
  simp only [TodoController.noCompleted, foldl_hasDone_eq, Bool.false_or, Bool.not_eq_eq_eq_not,
    Bool.not_true]
  rw [← Bool.not_eq_true]
  simp [List.any_eq_true]

/-- C7, witness: a collection with one not-done item. -/
theorem noCompleted_iff_all_not_done_w :
    TodoController.noCompleted
        ⟨⟨"", "DueDate", false⟩, [⟨1, false, "a", "2020-01-01"⟩], false⟩ = true
    ↔ ∀ item ∈ ([⟨1, false, "a", "2020-01-01"⟩] : List ITodoItem), item.IsDone = false :=
  noCompleted_iff_all_not_done ⟨⟨"", "DueDate", false⟩, [⟨1, false, "a", "2020-01-01"⟩], false⟩

/-- C8: a declined confirmation makes removeCompleted return immediately:
no delete calls, counter untouched, and the whole controller state (filter,
items, loading) unchanged. -/
theorem removeCompleted_declined_noop (c : CtrlState) :
    TodoController.removeCompleted c false = (c, [], 0) := by
  simp [TodoController.removeCompleted]

/-- C9: update sets loading and issues exactly one save call; on success
loading is cleared; on failure the error is alerted and loading cleared;
items and filter are unchanged in every resulting state. -/
theorem update_frame (c : CtrlState) (item : ITodoItem) (err : String) :
    (TodoController.update c item).1 = { c with loading := true }
    ∧ (TodoController.update c item).2 = [Call.updateItem item]
    ∧ TodoController.updateSuccess (TodoController.update c item).1
        = { c with loading := false }
    ∧ (TodoController.updateFailure (TodoController.update c item).1 err).1
        = { c with loading := false }
    ∧ (TodoController.updateFailure (TodoController.update c item).1 err).2 = [err] :=
  ⟨rfl, rfl, rfl, rfl, rfl⟩

/-- C10: construction initializes the filter to filterText empty, columnName
DueDate (via the reverse enum lookup) and sortAscending false, and triggers
exactly one refresh carrying that filter; when the server answers that
refresh with the single sample item, the controller holds exactly that
one-element collection and loading is false. -/
theorem construct_initial_scenario :
    TodoController.initialFilter = ⟨"", "DueDate", false⟩
    ∧ TodoController.construct.2 = [Call.getItems ⟨"", "DueDate", false⟩]
    ∧ TodoController.construct.1 = ⟨⟨"", "DueDate", false⟩, [], true⟩
    ∧ TodoController.refreshSuccess TodoController.construct.1
        [⟨1, false, "a", "2020-01-01"⟩]
      = ⟨⟨"", "DueDate", false⟩, [⟨1, false, "a", "2020-01-01"⟩], false⟩ := by
  refine ⟨rfl, rfl, rfl, rfl⟩

end TodoApp
